import Mathlib

/-!
Shallow embedding of the Entra audit-log simulator (entra_simulator.py and the
scenario injectors inject_token_theft.py and mail_received.py).

Modelling conventions:
- Entities (Python dicts for users and service principals) become one `Entity`
  structure carrying both the user-kind and the spn-kind fields; the render
  function only reads the fields appropriate to its `is_spn` flag, exactly as
  the Python code does.  Optional dict keys (`roles`, `email_*`) are `Option`s
  with the `.get`-style defaults applied where the source applies them.
- The record template is an external asset (templates/entra_template.json, not
  part of the repository source); a rendered record is modelled as the resolved
  placeholder-binding set, i.e. a `LogRecord` structure with one field per
  replacement entry of `_render_template`.
- Timestamps are modelled as natural numbers of seconds (the source formats a
  monotone UTC clock with strftime at second resolution, which is a monotone
  injective map on this range).
- Randomness is threaded explicitly: each loop iteration consumes one `Draw`
  containing the actor-kind coin (`random.random() < 0.2`), the index draws of
  the two `random.choice` calls, the failure coin (`random.random() < 0.15`),
  the jitter draw (`random.randint(15, 45)` is modelled as `15 + jitter % 31`,
  which has exactly the range of randint) and the per-event uuid4 string.
- Python exceptions (ValueError, KeyError, IndexError, StopIteration) become
  explicit error results; Python truthiness of the optional force strings
  (`if force_user:` treats both None and "" as absent) is modelled by `truthy`.
-/

/-- Python substring test `pat in s` on strings. -/
def strContains (s pat : String) : Bool :=
  decide (pat.toList <:+: s.toList)

/-- Python truthiness of an optional string argument: `None` and `""` both
count as absent, anything else as present. -/
def truthy : Option String → Option String
  | some s => if s = "" then none else some s
  | none => none

/-- `random.choice` on a list, driven by an abstract index draw; `none` exactly
when the list is empty (Python raises IndexError there). -/
def choice {α : Type} (l : List α) (i : Nat) : Option α :=
  l.get? (i % l.length)

/-- Python dict lookup on an association list (config dicts have unique keys). -/
def lookupStr (m : List (String × String)) (k : String) : Option String :=
  (m.find? (fun p => p.fst == k)).map Prod.snd

/-- The all-zero sentinel application identifier from entra_simulator.py line 78. -/
def zero_app_id : String := "00000000-0000-0000-0000-000000000000"

/-- An entity record (a user or a service principal), as loaded from the YAML
configs.  Users expose `user_id`, device/browser context and optionally
`roles` and the `email_*` keys; service principals expose `spn_id`.  Both
expose the network context.  Reading a field of the wrong kind never happens
in the source, which selects fields on its `is_spn` flag. -/
structure Entity where
  user_id : String
  spn_id : String
  roles : Option (List String)
  ip : String
  city : String
  country : String
  asn : String
  asn_name : String
  is_proxy : Bool
  device_id : String
  os : String
  browser : String
  user_agent : String
  email_sender : Option String
  email_subject : Option String
  email_url : Option String
deriving Repr, DecidableEq

/-- An operation from the operations catalogue. -/
structure Operation where
  name : String
  app_display_name : String
  auth_requirement : Option String
  mfa_required : Option Bool
deriving Repr, DecidableEq

/-- Organization settings (org_config.yaml). -/
structure OrgConfig where
  org_id : String
  record_type : Nat
  result_type : Nat
  result_status : String
deriving Repr, DecidableEq

/-- The simulator state after `__init__`: the already-parsed configuration. -/
structure Simulator where
  users : List Entity
  service_principals : List Entity
  org_config : OrgConfig
  app_id_map : List (String × String)
  operations : List Operation
deriving Repr, DecidableEq

/-- A rendered log record: the full placeholder-binding set of
`_render_template` (the template itself is an external asset). -/
structure LogRecord where
  timestamp : Nat
  operation : String
  org_id : String
  record_type : String
  result_type : String
  user_type : String
  roles : List String
  client_ip : String
  user_id : String
  workload : String
  result_status : String
  device_id : String
  os : String
  browser : String
  user_agent : String
  app_id : String
  app_display_name : String
  event_id : String
  auth_requirement : String
  mfa_required : String
  city : String
  country : String
  asn_number : String
  asn_name : String
  is_proxy : String
  resource : String
  email_sender : String
  email_subject : String
  email_url : String
deriving Repr, DecidableEq

/-- The random draws one generation-loop iteration consumes. -/
structure Draw where
  spnCoin : Bool
  entityIdx : Nat
  opIdx : Nat
  failCoin : Bool
  jitter : Nat
  eventId : String
deriving Repr, DecidableEq

/-- The static operation-name to resource-kind map (lines 35-56). -/
def operation_resource_map : List (String × String) :=
  [("InteractiveUserSignIn", "UserAccount"),
   ("TokenIssued", "UserAccount"),
   ("SendMail", "MailItem"),
   ("FileAccessed", "File"),
   ("AddMemberToGroup", "Group"),
   ("RemoveMemberFromGroup", "Group"),
   ("CreateTeam", "Team"),
   ("DeleteFile", "File"),
   ("DownloadFile", "File"),
   ("ViewSharePointPage", "Page"),
   ("UpdateCalendar", "CalendarEvent"),
   ("ShareFile", "File"),
   ("CreateChannel", "Channel"),
   ("JoinMeeting", "Meeting"),
   ("CreateUser", "UserAccount"),
   ("DeleteUser", "UserAccount"),
   ("ResetPassword", "UserAccount"),
   ("AddServicePrincipal", "ServicePrincipal"),
   ("SignInWithServicePrincipal", "ServicePrincipal"),
   ("ConsentToApp", "UserAccount")]

/-- `EntraLogSimulator._render_template` (lines 66-135).  Returns `none` for
the KeyError the source raises at line 114 when the application display name
is absent from the map; note the sentinel-defaulted `app_id` of line 78 is
bound but never used, exactly as in the source. -/
def renderTemplate (sim : Simulator) (entity : Entity) (operation : Operation)
    (timestamp : Nat) (event_id : String) (is_failure : Bool) (is_spn : Bool)
    (override_app : Option String) : Option LogRecord :=
  let result_status := if is_failure then "Failure" else sim.org_config.result_status
  let app_display := override_app.getD operation.app_display_name
  let app_id := (lookupStr sim.app_id_map app_display).getD zero_app_id
  let resource_type := (lookupStr operation_resource_map operation.name).getD "Unknown"
  let user_id := if is_spn then entity.spn_id else entity.user_id
  let roles := if is_spn then ["ServicePrincipal"] else entity.roles.getD []
  let user_type :=
    if is_spn then "2"
    else if (entity.roles.getD []).contains "guest" then "10" else "0"
  let user_agent := if is_spn then "AzureAD-Application" else entity.user_agent
  let device_id := if is_spn then "spn-device" else entity.device_id
  let os := if is_spn then "Unknown" else entity.os
  let browser := if is_spn then "Unknown" else entity.browser
  match lookupStr sim.app_id_map app_display with
  | none => none
  | some mapped_app_id =>
      some {
        timestamp := timestamp
        operation := operation.name
        org_id := sim.org_config.org_id
        record_type := toString sim.org_config.record_type
        result_type := toString sim.org_config.result_type
        user_type := user_type
        roles := roles
        client_ip := entity.ip
        user_id := user_id
        workload := "AzureActiveDirectory"
        result_status := result_status
        device_id := device_id
        os := os
        browser := browser
        user_agent := user_agent
        app_id := mapped_app_id
        app_display_name := app_display
        event_id := event_id
        auth_requirement := operation.auth_requirement.getD "None"
        mfa_required := if operation.mfa_required.getD false then "true" else "false"
        city := entity.city
        country := entity.country
        asn_number := entity.asn
        asn_name := entity.asn_name
        is_proxy := if entity.is_proxy then "true" else "false"
        resource := resource_type
        email_sender := entity.email_sender.getD "attacker@evil.com"
        email_subject := entity.email_subject.getD "Security Notice: Action Required"
        email_url := entity.email_url.getD "https://login.microsoftonline.com-reset-verify.com"
      }

/-- Entity selection of one loop iteration (lines 154-164): actor-kind coin,
then forced-user lookup (which overrides the coin to non-spn) or a random
choice from the corresponding pool. -/
def selectEntity (sim : Simulator) (force_user : Option String) (d : Draw) :
    Except String (Entity × Bool) :=
  match truthy force_user with
  | some fu =>
      match sim.users.find? (fun u => u.user_id == fu) with
      | some e => .ok (e, false)
      | none => .error ("User " ++ fu ++ " not found.")
  | none =>
      if d.spnCoin then
        match choice sim.service_principals d.entityIdx with
        | some e => .ok (e, true)
        | none => .error "IndexError: cannot choose from an empty sequence"
      else
        match choice sim.users d.entityIdx with
        | some e => .ok (e, false)
        | none => .error "IndexError: cannot choose from an empty sequence"

/-- Operation selection of one loop iteration (lines 166-177): forced lookup,
or a random choice from the class-matching pool; `.ok none` is the `continue`
taken when the unforced pool is empty. -/
def selectOperation (sim : Simulator) (force_operation : Option String)
    (is_spn : Bool) (d : Draw) : Except String (Option Operation) :=
  match truthy force_operation with
  | some fo =>
      match sim.operations.find? (fun op => op.name == fo) with
      | some op => .ok (some op)
      | none => .error ("Operation " ++ fo ++ " not found.")
  | none =>
      let ops_pool := sim.operations.filter
        (fun op => strContains op.name "ServicePrincipal" == is_spn)
      .ok (choice ops_pool d.opIdx)

/-- Outcome of one loop iteration. -/
inductive StepResult where
  | fail (msg : String)
  | skip
  | emit (log : LogRecord) (next_time : Nat)
deriving Repr, DecidableEq

/-- One iteration of the generation loop body (lines 153-198): select entity
and operation, compute the failure flag, render, and on success advance the
simulated clock by the jitter. -/
def genStep (sim : Simulator) (include_failures : Bool)
    (force_user force_app force_operation : Option String)
    (d : Draw) (current_time : Nat) : StepResult :=
  match selectEntity sim force_user d with
  | .error m => .fail m
  | .ok (entity, is_spn) =>
    match selectOperation sim force_operation is_spn d with
    | .error m => .fail m
    | .ok none => .skip
    | .ok (some operation) =>
      match renderTemplate sim entity operation current_time d.eventId
          (include_failures && (operation.name == "InteractiveUserSignIn")
            && (!is_spn) && d.failCoin)
          is_spn (truthy force_app) with
      | none => .fail ("KeyError: " ++ ((truthy force_app).getD operation.app_display_name))
      | some log => .emit log (current_time + (15 + d.jitter % 31))

/-- Result of a whole generation run: a normal return, a propagated exception
(carrying the records rendered before it, which the source discards), or an
exhausted draw stream (the source would keep looping). -/
inductive GenResult where
  | ok (logs : List LogRecord)
  | err (msg : String) (emitted : List LogRecord)
  | outOfDraws (emitted : List LogRecord)
deriving Repr, DecidableEq

/-- The `while len(logs) < total_logs` loop of `generate_logs`, consuming one
`Draw` per iteration. -/
def genLoop (sim : Simulator) (total_logs : Nat) (include_failures : Bool)
    (force_user force_app force_operation : Option String) :
    List Draw → Nat → List LogRecord → GenResult
  | [], _, logs =>
      if logs.length < total_logs then .outOfDraws logs else .ok logs
  | d :: rest, current_time, logs =>
      if logs.length < total_logs then
        match genStep sim include_failures force_user force_app force_operation d current_time with
        | .fail m => .err m logs
        | .skip =>
            genLoop sim total_logs include_failures force_user force_app force_operation
              rest current_time logs
        | .emit log t2 =>
            genLoop sim total_logs include_failures force_user force_app force_operation
              rest t2 (logs ++ [log])
      else .ok logs

/-- `EntraLogSimulator.generate_logs` (lines 137-200).  The `is_attack`
parameter is accepted and, exactly as in the source, never used. -/
def generate_logs (sim : Simulator) (total_logs : Nat) (simulate_start_time : Nat)
    (include_failures : Bool) (force_user force_app force_operation : Option String)
    (is_attack : Bool) (draws : List Draw) : GenResult :=
  genLoop sim total_logs include_failures force_user force_app force_operation
    draws simulate_start_time []

/-- `generate_token_theft_logs` from inject_token_theft.py (lines 6-56): a
token-issuance record for the victim at `now`, then an interactive sign-in
three minutes later for a copy of the victim with the attacker network and
device fields overridden.  File writing is external; the pair of records is
the output. -/
def generate_token_theft_logs (sim : Simulator) (username : String) (now : Nat)
    (event_id1 event_id2 : String) : Except String (LogRecord × LogRecord) :=
  match sim.users.find? (fun u => u.user_id == username) with
  | none => .error ("User " ++ username ++ " not found in users.yaml")
  | some user =>
    let token_ts := now
    let signin_ts := now + 180
    match sim.operations.find? (fun op => op.name == "TokenIssued") with
    | none => .error "StopIteration"
    | some token_op =>
      match sim.operations.find? (fun op => op.name == "InteractiveUserSignIn") with
      | none => .error "StopIteration"
      | some signin_op =>
        match renderTemplate sim user token_op token_ts event_id1 false false none with
        | none => .error "KeyError"
        | some token_log =>
          let attacker : Entity :=
            { user with
              ip := "203.0.113.99"
              os := "Kali Linux"
              browser := "Unknown"
              device_id := "device-attacker"
              user_agent := "curl/8.1.0"
              city := "Moscow"
              country := "RU"
              asn := "AS12389"
              asn_name := "Rostelecom"
              is_proxy := true }
          match renderTemplate sim attacker signin_op signin_ts event_id2 false false none with
          | none => .error "KeyError"
          | some signin_log => .ok (token_log, signin_log)

/-- The attachment sub-structure of the phishing email block
(mail_received.py lines 64-76). -/
structure Attachment where
  filename : String
  path : String
  directory : String
  extension : String
  file_type : String
  md5 : String
  sha256 : String
  is_signed : Bool
  signer : String
  signature_status : String
  size : Int
deriving Repr, DecidableEq

/-- The email block built by `build_email_block` (mail_received.py lines 21-78). -/
structure EmailBlock where
  sender : String
  recipients : List String
  cc : List String
  bcc : List String
  subject : String
  data : String
  mime : String
  return_path : String
  message_id : String
  delivery_time : String
  origination_time : String
  attachment : Option Attachment
deriving Repr, DecidableEq

/-- `safe_hashes` (mail_received.py lines 16-19).  The hashlib digest
functions are external pure functions of the seed string, passed in
explicitly. -/
def safe_hashes (md5_fn sha256_fn : String → String) (seed : String) : String × String :=
  (md5_fn seed, sha256_fn seed)

/-- `build_email_block` (mail_received.py lines 21-78).  The uuid4 used in the
message id is threaded in as `message_uuid`. -/
def build_email_block (md5_fn sha256_fn : String → String) (message_uuid : String)
    (recipient sender subject url delivery_time_iso origination_time_iso : String)
    (include_attachment : Bool) (attach_name attach_mime : String)
    (attach_size : Int) (return_path : String) : EmailBlock :=
  let message_id := "<" ++ message_uuid ++ "@security.microsoft.com>"
  let data_body :=
    "Heads up! We detected an unusual sign-in attempt.\n\nReview: " ++ url ++ "\n"
  let mime_header := "multipart/alternative; boundary=\"----=_Part_12345_67890.1693673950\""
  let base : EmailBlock :=
    { sender := sender
      recipients := [recipient]
      cc := []
      bcc := []
      subject := subject
      data := data_body
      mime := mime_header
      return_path := return_path
      message_id := message_id
      delivery_time := delivery_time_iso
      origination_time := origination_time_iso
      attachment := none }
  if include_attachment then
    let hashes := safe_hashes md5_fn sha256_fn (subject ++ url ++ attach_name)
    let directory := "/Users/" ++ ((recipient.splitOn "@").headD "") ++ "/Library/Mail/Attachments/"
    let path := directory ++ attach_name
    let extension :=
      if strContains attach_name "." then (attach_name.splitOn ".").getLastD "" else ""
    { base with
      attachment := some {
        filename := attach_name
        path := path
        directory := directory
        extension := extension
        file_type := attach_mime
        md5 := hashes.1
        sha256 := hashes.2
        is_signed := false
        signer := ""
        signature_status := "UNSIGNED"
        size := attach_size } }
  else base

/-! Concrete test configuration used by witnesses and counterexamples. -/

/-- A concrete benign user. -/
def cAlice : Entity :=
  { user_id := "alice@contoso.com"
    spn_id := ""
    roles := some ["user"]
    ip := "10.0.0.1"
    city := "Oslo"
    country := "NO"
    asn := "AS100"
    asn_name := "TeleNO"
    is_proxy := false
    device_id := "device-001"
    os := "Windows 11"
    browser := "Edge"
    user_agent := "Mozilla/5.0"
    email_sender := none
    email_subject := none
    email_url := none }

/-- A concrete guest user. -/
def cGuest : Entity :=
  { cAlice with user_id := "guest@fabrikam.com", roles := some ["guest"] }

/-- A concrete service principal. -/
def cSpn : Entity :=
  { user_id := ""
    spn_id := "spn-0001"
    roles := none
    ip := "10.0.9.9"
    city := "Dublin"
    country := "IE"
    asn := "AS200"
    asn_name := "AzureDC"
    is_proxy := false
    device_id := ""
    os := ""
    browser := ""
    user_agent := ""
    email_sender := none
    email_subject := none
    email_url := none }

/-- Interactive sign-in operation. -/
def cOpSignin : Operation :=
  { name := "InteractiveUserSignIn"
    app_display_name := "Office 365"
    auth_requirement := some "SingleFactorAuthentication"
    mfa_required := some false }

/-- Token issuance operation. -/
def cOpToken : Operation :=
  { name := "TokenIssued"
    app_display_name := "Office 365"
    auth_requirement := none
    mfa_required := none }

/-- Service-principal sign-in operation. -/
def cOpSpnSignin : Operation :=
  { name := "SignInWithServicePrincipal"
    app_display_name := "Office 365"
    auth_requirement := none
    mfa_required := none }

/-- An operation whose application display name is not in the map. -/
def cOpGhostApp : Operation :=
  { name := "FileAccessed"
    app_display_name := "Ghost App"
    auth_requirement := none
    mfa_required := none }

/-- Concrete organization settings. -/
def cOrg : OrgConfig :=
  { org_id := "org-1", record_type := 15, result_type := 0, result_status := "Success" }

/-- A concrete well-formed simulator configuration. -/
def cSim : Simulator :=
  { users := [cAlice, cGuest]
    service_principals := [cSpn]
    org_config := cOrg
    app_id_map := [("Office 365", "d3590ed6-52b3-4102-aeff-aad2292ab01c"),
                   ("Contoso Phish Portal", "f3b8a0c7-0d6d-4f0f-9a6c-2f1e3e8b9f77")]
    operations := [cOpSignin, cOpToken, cOpSpnSignin] }

/-- A simulator meeting the pool and class hypotheses of the batch claims but
with an empty application map. -/
def cSimGhost : Simulator :=
  { cSim with
    app_id_map := []
    operations := [cOpGhostApp, cOpSpnSignin] }

/-- A simulator whose catalogue has no service-principal-class operation. -/
def cSimNoSpnOps : Simulator :=
  { cSim with operations := [cOpSignin, cOpToken] }

/-- A draw picking a user actor with failure coin down. -/
def cDrawU : Draw :=
  { spnCoin := false, entityIdx := 0, opIdx := 0, failCoin := false, jitter := 0,
    eventId := "evt-1" }

/-- A draw picking a user actor with failure coin up (differing from `cDrawU`
only in the failure coin). -/
def cDrawF : Draw :=
  { cDrawU with failCoin := true }

/-- A draw picking a service-principal actor. -/
def cDrawS : Draw :=
  { spnCoin := true, entityIdx := 0, opIdx := 0, failCoin := false, jitter := 7,
    eventId := "evt-3" }

/-! Helper lemmas about the Field Resolver / Template Renderer. -/

/-- A successful render determines every record field from its inputs. -/
theorem renderTemplate_some_fields (sim : Simulator) (e : Entity) (op : Operation)
    (ts : Nat) (eid : String) (isf spn : Bool) (ov : Option String) (r : LogRecord)
    (h : renderTemplate sim e op ts eid isf spn ov = some r) :
    r.timestamp = ts
    ∧ r.operation = op.name
    ∧ r.result_status = (if isf then "Failure" else sim.org_config.result_status)
    ∧ r.user_type = (if spn then "2"
        else if (e.roles.getD []).contains "guest" then "10" else "0")
    ∧ r.user_id = (if spn then e.spn_id else e.user_id)
    ∧ r.roles = (if spn then ["ServicePrincipal"] else e.roles.getD [])
    ∧ r.user_agent = (if spn then "AzureAD-Application" else e.user_agent)
    ∧ r.device_id = (if spn then "spn-device" else e.device_id)
    ∧ r.os = (if spn then "Unknown" else e.os)
    ∧ r.browser = (if spn then "Unknown" else e.browser)
    ∧ r.app_display_name = ov.getD op.app_display_name
    ∧ r.client_ip = e.ip
    ∧ r.city = e.city
    ∧ r.country = e.country
    ∧ r.asn_number = e.asn
    ∧ r.asn_name = e.asn_name
    ∧ r.event_id = eid := by
  simp only [renderTemplate] at h
  cases hlk : lookupStr sim.app_id_map (ov.getD op.app_display_name) with
  | none => rw [hlk] at h; exact absurd h (by simp)
  | some aid =>
      rw [hlk] at h
      have hr := (Option.some.injEq _ _).mp h
      subst hr
      refine ⟨rfl, rfl, rfl, rfl, rfl, rfl, rfl, rfl, rfl, rfl, rfl, rfl, rfl, rfl,
        rfl, rfl, rfl⟩

/-- Rendering succeeds exactly when the application display name is in the map. -/
theorem renderTemplate_isSome (sim : Simulator) (e : Entity) (op : Operation)
    (ts : Nat) (eid : String) (isf spn : Bool) (ov : Option String)
    (h : (lookupStr sim.app_id_map (ov.getD op.app_display_name)).isSome) :
    ∃ r, renderTemplate sim e op ts eid isf spn ov = some r := by
  rcases Option.isSome_iff_exists.mp h with ⟨aid, haid⟩
  have hs : (renderTemplate sim e op ts eid isf spn ov).isSome := by
    simp [renderTemplate, haid]
  exact Option.isSome_iff_exists.mp hs

/-! Helper lemmas about the selectors and the loop step. -/

/-- `random.choice` on a non-empty list yields an element of the list. -/
theorem choice_ne_nil {α : Type} (l : List α) (hne : l ≠ []) (i : Nat) :
    ∃ x, choice l i = some x ∧ x ∈ l := by
  have hlen : 0 < l.length := List.length_pos.mpr hne
  have hlt : i % l.length < l.length := Nat.mod_lt _ hlen
  cases hget : l.get? (i % l.length) with
  | none =>
      rw [List.get?_eq_none] at hget
      omega
  | some x => exact ⟨x, hget, List.get?_mem hget⟩

/-- Unforced entity selection from non-empty pools succeeds, picking the pool
named by the actor-kind coin. -/
theorem selectEntity_unforced (sim : Simulator) (fu : Option String) (d : Draw)
    (hfu : truthy fu = none) (hu : sim.users ≠ []) (hs : sim.service_principals ≠ []) :
    ∃ e, selectEntity sim fu d = .ok (e, d.spnCoin)
      ∧ e ∈ (if d.spnCoin then sim.service_principals else sim.users) := by
  unfold selectEntity
  rw [hfu]
  cases hc : d.spnCoin with
  | false =>
      rcases choice_ne_nil sim.users hu d.entityIdx with ⟨e, he, hmem⟩
      exact ⟨e, by simp [he], by simp [hmem]⟩
  | true =>
      rcases choice_ne_nil sim.service_principals hs d.entityIdx with ⟨e, he, hmem⟩
      exact ⟨e, by simp [he], by simp [hmem]⟩

/-- Forced entity selection looks the user up and forces the non-spn kind. -/
theorem selectEntity_forced (sim : Simulator) (fu : Option String) (d : Draw)
    (u : String) (e : Entity) (hfu : truthy fu = some u)
    (hfind : sim.users.find? (fun x => x.user_id == u) = some e) :
    selectEntity sim fu d = .ok (e, false) := by
  simp [selectEntity, hfu, hfind]

/-- Unforced operation selection succeeds whenever the catalogue holds an
operation of the requested class. -/
theorem selectOperation_unforced (sim : Simulator) (fo : Option String)
    (is_spn : Bool) (d : Draw) (hfo : truthy fo = none)
    (hpool : ∃ op ∈ sim.operations, strContains op.name "ServicePrincipal" = is_spn) :
    ∃ op, selectOperation sim fo is_spn d = .ok (some op) ∧ op ∈ sim.operations := by
  unfold selectOperation
  rw [hfo]
  rcases hpool with ⟨op0, hmem0, hcls0⟩
  have hmemf : op0 ∈ sim.operations.filter
      (fun op => strContains op.name "ServicePrincipal" == is_spn) := by
    refine List.mem_filter.mpr ⟨hmem0, ?_⟩
    simp [hcls0]
  rcases choice_ne_nil _ (List.ne_nil_of_mem hmemf) d.opIdx with ⟨op, hop, hmem⟩
  exact ⟨op, by simp [hop], (List.mem_filter.mp hmem).1⟩

/-- Forced operation selection looks the operation up by name. -/
theorem selectOperation_forced (sim : Simulator) (fo : Option String)
    (is_spn : Bool) (d : Draw) (o : String) (op : Operation)
    (hfo : truthy fo = some o)
    (hfind : sim.operations.find? (fun x => x.name == o) = some op) :
    selectOperation sim fo is_spn d = .ok (some op) := by
  simp [selectOperation, hfo, hfind]

/-- Inversion of an emitting loop step: it came from successful selections and
a successful render, and advanced the clock by the jitter. -/
theorem genStep_emit_inv (sim : Simulator) (inf : Bool)
    (fu fa fo : Option String) (d : Draw) (t : Nat) (log : LogRecord) (t2 : Nat)
    (h : genStep sim inf fu fa fo d t = .emit log t2) :
    t2 = t + (15 + d.jitter % 31)
    ∧ ∃ entity is_spn operation,
        selectEntity sim fu d = .ok (entity, is_spn)
        ∧ selectOperation sim fo is_spn d = .ok (some operation)
        ∧ renderTemplate sim entity operation t d.eventId
            (inf && (operation.name == "InteractiveUserSignIn") && (!is_spn) && d.failCoin)
            is_spn (truthy fa) = some log := by
  unfold genStep at h
  split at h
  next m hsel => exact absurd h (by simp)
  next entity is_spn hsel =>
    split at h
    next m hop => exact absurd h (by simp)
    next hop => exact absurd h (by simp)
    next operation hop =>
      split at h
      next hrd => exact absurd h (by simp)
      next log0 hrd =>
        have h1 := h
        simp only [StepResult.emit.injEq] at h1
        refine ⟨h1.2.symm, entity, is_spn, operation, hsel, hop, ?_⟩
        rw [h1.1] at hrd
        exact hrd

/-- A step emits whenever both selections and the render succeed. -/
theorem genStep_emits (sim : Simulator) (inf : Bool) (fu fa fo : Option String)
    (d : Draw) (t : Nat) (entity : Entity) (is_spn : Bool) (operation : Operation)
    (log : LogRecord)
    (hsel : selectEntity sim fu d = .ok (entity, is_spn))
    (hop : selectOperation sim fo is_spn d = .ok (some operation))
    (hrd : renderTemplate sim entity operation t d.eventId
      (inf && (operation.name == "InteractiveUserSignIn") && (!is_spn) && d.failCoin)
      is_spn (truthy fa) = some log) :
    genStep sim inf fu fa fo d t = .emit log (t + (15 + d.jitter % 31)) := by
  simp [genStep, hsel, hop, hrd]

/-- The timestamp of the head of an emitted suffix. -/
def headTs (t : Nat) : List LogRecord → Prop
  | [] => True
  | r :: _ => r.timestamp = t

/-- Two consecutive records are separated by one jitter advance of 15 to 45
seconds. -/
def jitterRel (a b : LogRecord) : Prop :=
  a.timestamp + 15 ≤ b.timestamp ∧ b.timestamp ≤ a.timestamp + 45

/-- When every iteration emits (with the record stamped at the current clock
and the clock advanced by the jitter), the loop returns exactly the requested
number of records, consecutive ones separated by one jitter advance. -/
theorem genLoop_emitAll (sim : Simulator) (tl : Nat) (inf : Bool)
    (fu fa fo : Option String)
    (hemit : ∀ (d : Draw) (t : Nat), ∃ log,
      genStep sim inf fu fa fo d t = .emit log (t + (15 + d.jitter % 31))
      ∧ log.timestamp = t) :
    ∀ (draws : List Draw) (t : Nat) (acc : List LogRecord),
    acc.length ≤ tl → tl ≤ acc.length + draws.length →
    ∃ tail, genLoop sim tl inf fu fa fo draws t acc = .ok (acc ++ tail)
      ∧ acc.length + tail.length = tl
      ∧ headTs t tail ∧ List.Chain' jitterRel tail := by
  intro draws
  induction draws with
  | nil =>
      intro t acc h1 h2
      simp only [List.length_nil, Nat.add_zero] at h2
      have hnlt : ¬ (acc.length < tl) := by omega
      refine ⟨[], by simp [genLoop, hnlt], by simpa using Nat.le_antisymm h1 h2,
        trivial, List.chain'_nil⟩
  | cons d rest ih =>
      intro t acc h1 h2
      by_cases hlt : acc.length < tl
      · rcases hemit d t with ⟨log, hstep, hts⟩
        have hloop : genLoop sim tl inf fu fa fo (d :: rest) t acc
            = genLoop sim tl inf fu fa fo rest (t + (15 + d.jitter % 31)) (acc ++ [log]) := by
          simp [genLoop, hlt, hstep]
        have hlen1 : (acc ++ [log]).length = acc.length + 1 := by simp
        rcases ih (t + (15 + d.jitter % 31)) (acc ++ [log])
            (by omega) (by simp at h2 ⊢; omega) with ⟨tail, heq, hlen, hhead, hchain⟩
        refine ⟨log :: tail, ?_, ?_, hts, ?_⟩
        · rw [hloop, heq]; simp
        · rw [hlen1] at hlen; simp only [List.length_cons]; omega
        · cases tail with
          | nil => simp
          | cons r rs =>
              refine List.chain'_cons.mpr ⟨?_, hchain⟩
              have hr : r.timestamp = t + (15 + d.jitter % 31) := hhead
              constructor
              · omega
              · omega
      · have hnlt := hlt
        have heq : acc.length = tl := by omega
        refine ⟨[], by simp [genLoop, hnlt], by simpa using heq, trivial, List.chain'_nil⟩

/-- Every record of a successful run satisfies any property that all
emitted records satisfy. -/
theorem genLoop_ok_forall (sim : Simulator) (tl : Nat) (inf : Bool)
    (fu fa fo : Option String) (P : LogRecord → Prop)
    (hstep : ∀ d t log t2, genStep sim inf fu fa fo d t = .emit log t2 → P log) :
    ∀ (draws : List Draw) (t : Nat) (acc : List LogRecord),
    (∀ r ∈ acc, P r) → ∀ logs,
    genLoop sim tl inf fu fa fo draws t acc = .ok logs → ∀ r ∈ logs, P r := by
  intro draws
  induction draws with
  | nil =>
      intro t acc hacc logs h
      by_cases hlt : acc.length < tl
      · simp [genLoop, hlt] at h
      · simp [genLoop, hlt] at h
        exact h ▸ hacc
  | cons d rest ih =>
      intro t acc hacc logs h
      by_cases hlt : acc.length < tl
      · simp only [genLoop, if_pos hlt] at h
        split at h
        next m hst => exact absurd h (by simp)
        next hst => exact ih t acc hacc logs h
        next log t2 hst =>
            refine ih t2 (acc ++ [log]) ?_ logs h
            intro r hr
            rcases List.mem_append.mp hr with hr1 | hr2
            · exact hacc r hr1
            · rw [List.mem_singleton.mp hr2]
              exact hstep d t log t2 hst
      · simp [genLoop, hlt] at h
        exact h ▸ hacc

/-- A skipped iteration (empty unforced operation pool) consumes no record
slot and leaves the simulated clock unchanged. -/
theorem genLoop_skip_step (sim : Simulator) (tl : Nat) (inf : Bool)
    (fu fa fo : Option String) (d : Draw) (rest : List Draw) (t : Nat)
    (acc : List LogRecord) (hlt : acc.length < tl)
    (hskip : genStep sim inf fu fa fo d t = .skip) :
    genLoop sim tl inf fu fa fo (d :: rest) t acc
    = genLoop sim tl inf fu fa fo rest t acc := by
  simp [genLoop, hlt, hskip]

/-! Claim theorems. -/

/-- C1: the claim says an application display name absent from the
ApplicationMap resolves to the all-zero sentinel identifier and rendering does
not raise.  The code computes that sentinel default into an unused variable
(line 78) but then indexes the map directly (line 114), so rendering raises
KeyError instead: here the render of an operation whose display name is
missing from the map returns the KeyError outcome `none`. -/
theorem c1_unknown_app_render_raises :
    renderTemplate cSim cAlice cOpGhostApp 0 "evt-c1" false false none = none := by
  rfl

/-- C9: every record rendered for a service-principal actor carries the fixed
user-type code "2" and only the fixed placeholder values for the user-only
fields (user agent "AzureAD-Application", device id "spn-device", OS
"Unknown", browser "Unknown", roles ["ServicePrincipal"]), its identity being
the principal identifier. -/
theorem c9_spn_fixed_placeholders (sim : Simulator) (e : Entity) (op : Operation)
    (ts : Nat) (eid : String) (isf : Bool) (ov : Option String) (r : LogRecord)
    (h : renderTemplate sim e op ts eid isf true ov = some r) :
    r.user_type = "2" ∧ r.user_agent = "AzureAD-Application"
    ∧ r.device_id = "spn-device" ∧ r.os = "Unknown" ∧ r.browser = "Unknown"
    ∧ r.roles = ["ServicePrincipal"] ∧ r.user_id = e.spn_id := by
  obtain ⟨-, -, -, h4, h5, h6, h7, h8, h9, h10, -⟩ :=
    renderTemplate_some_fields sim e op ts eid isf true ov r h
  simp only [if_pos rfl] at h4 h5 h6 h7 h8 h9 h10
  exact ⟨h4, h7, h8, h9, h10, h6, h5⟩

/-- Witness for C9 at a concrete service principal render. -/
theorem c9_witness :
    ∃ r, renderTemplate cSim cSpn cOpSpnSignin 0 "evt-w9" false true none = some r
      ∧ r.user_type = "2" ∧ r.user_agent = "AzureAD-Application"
      ∧ r.device_id = "spn-device" ∧ r.os = "Unknown" ∧ r.browser = "Unknown"
      ∧ r.roles = ["ServicePrincipal"] ∧ r.user_id = cSpn.spn_id := by
  rcases renderTemplate_isSome cSim cSpn cOpSpnSignin 0 "evt-w9" false true none
    (by decide) with ⟨r, hr⟩
  exact ⟨r, hr, c9_spn_fixed_placeholders cSim cSpn cOpSpnSignin 0 "evt-w9" false none r hr⟩

/-- C10: a non-service-principal render classifies the user type as "10"
exactly when the entity's roles contain "guest" and as "0" otherwise, an
entity without a roles field being treated as having no roles. -/
theorem c10_user_type_classification (sim : Simulator) (e : Entity) (op : Operation)
    (ts : Nat) (eid : String) (isf : Bool) (ov : Option String) (r : LogRecord)
    (h : renderTemplate sim e op ts eid isf false ov = some r) :
    (r.user_type = if "guest" ∈ e.roles.getD [] then "10" else "0")
    ∧ (e.roles = none → r.user_type = "0") := by
  obtain ⟨-, -, -, h4, -⟩ :=
    renderTemplate_some_fields sim e op ts eid isf false ov r h
  simp only [Bool.false_eq_true, if_false] at h4
  have hmem : ((e.roles.getD []).contains "guest" = true) ↔ "guest" ∈ e.roles.getD [] :=
    List.elem_iff
  constructor
  · rw [h4]
    by_cases hg : "guest" ∈ e.roles.getD []
    · rw [if_pos (hmem.mpr hg), if_pos hg]
    · rw [if_neg (fun hc => hg (hmem.mp hc)), if_neg hg]
  · intro hn
    rw [h4, hn]
    simp

/-- Witness for C10 at a concrete guest render and a concrete non-guest render. -/
theorem c10_witness :
    ∃ r, renderTemplate cSim cGuest cOpSignin 0 "evt-w10" false false none = some r
      ∧ (r.user_type = if "guest" ∈ cGuest.roles.getD [] then "10" else "0")
      ∧ (cGuest.roles = none → r.user_type = "0") := by
  rcases renderTemplate_isSome cSim cGuest cOpSignin 0 "evt-w10" false false none
    (by decide) with ⟨r, hr⟩
  exact ⟨r, hr, c10_user_type_classification cSim cGuest cOpSignin 0 "evt-w10" false none r hr⟩

/-- C7: the phishing-mail attachment digest pair depends only on the subject,
the URL and the attachment filename: two invocations agreeing on those three
(yet differing in uuid, recipient, sender, timestamps, MIME type, size and
return path) produce identical md5/sha256 digests. -/
theorem c7_digest_deterministic (md5_fn sha256_fn : String → String)
    (uuid1 uuid2 rcpt1 rcpt2 snd1 snd2 subject url dt1 dt2 ot1 ot2
      mime1 mime2 rp1 rp2 attach_name : String) (size1 size2 : Int) :
    (build_email_block md5_fn sha256_fn uuid1 rcpt1 snd1 subject url dt1 ot1
        true attach_name mime1 size1 rp1).attachment.map (fun a => (a.md5, a.sha256))
    = (build_email_block md5_fn sha256_fn uuid2 rcpt2 snd2 subject url dt2 ot2
        true attach_name mime2 size2 rp2).attachment.map (fun a => (a.md5, a.sha256)) := by
  simp [build_email_block, safe_hashes]

/-- C4: for a configured user, the token-theft injector emits exactly two
records: a token-issuance record at time T carrying the victim's own
network/device context, then an interactive sign-in at T plus 3 minutes
carrying the overridden attacker network/device/browser values, the user
identity being the victim's user id in both. -/
theorem c4_token_theft_two_records (sim : Simulator) (username : String)
    (now : Nat) (e1 e2 : String)
    (hu : (sim.users.find? (fun u => u.user_id == username)).isSome)
    (h1 : (sim.operations.find? (fun op => op.name == "TokenIssued")).isSome)
    (h2 : (sim.operations.find? (fun op => op.name == "InteractiveUserSignIn")).isSome)
    (happ : ∀ op ∈ sim.operations, (lookupStr sim.app_id_map op.app_display_name).isSome) :
    ∃ r1 r2 u,
      generate_token_theft_logs sim username now e1 e2 = .ok (r1, r2)
      ∧ sim.users.find? (fun x => x.user_id == username) = some u
      ∧ r1.user_id = username ∧ r2.user_id = username
      ∧ r1.timestamp = now ∧ r2.timestamp = now + 180
      ∧ r1.operation = "TokenIssued" ∧ r2.operation = "InteractiveUserSignIn"
      ∧ r1.client_ip = u.ip ∧ r1.device_id = u.device_id ∧ r1.os = u.os
      ∧ r1.browser = u.browser ∧ r1.user_agent = u.user_agent
      ∧ r1.city = u.city ∧ r1.country = u.country
      ∧ r2.client_ip = "203.0.113.99" ∧ r2.os = "Kali Linux"
      ∧ r2.browser = "Unknown" ∧ r2.device_id = "device-attacker"
      ∧ r2.user_agent = "curl/8.1.0" ∧ r2.city = "Moscow" ∧ r2.country = "RU" := by
  rcases Option.isSome_iff_exists.mp hu with ⟨u, hu2⟩
  rcases Option.isSome_iff_exists.mp h1 with ⟨top, ht⟩
  rcases Option.isSome_iff_exists.mp h2 with ⟨sop, hs⟩
  have htm : top ∈ sim.operations := List.mem_of_find?_eq_some ht
  have hsm : sop ∈ sim.operations := List.mem_of_find?_eq_some hs
  have huid : u.user_id = username := by
    have := List.find?_some hu2
    exact eq_of_beq this
  rcases renderTemplate_isSome sim u top now e1 false false none
    (by simpa using happ top htm) with ⟨r1, hr1⟩
  rcases renderTemplate_isSome sim
      { u with
        ip := "203.0.113.99"
        os := "Kali Linux"
        browser := "Unknown"
        device_id := "device-attacker"
        user_agent := "curl/8.1.0"
        city := "Moscow"
        country := "RU"
        asn := "AS12389"
        asn_name := "Rostelecom"
        is_proxy := true }
      sop (now + 180) e2 false false none
    (by simpa using happ sop hsm) with ⟨r2, hr2⟩
  refine ⟨r1, r2, u, ?_, hu2, ?_⟩
  · simp only [generate_token_theft_logs, hu2, ht, hs, hr1, hr2]
  · obtain ⟨ht1, ht2, -, -, ht5, -, ht7, ht8, ht9, ht10, -, ht12, ht13, ht14, -, -, -⟩ :=
      renderTemplate_some_fields sim u top now e1 false false none r1 hr1
    obtain ⟨hs1, hs2, -, -, hs5, -, hs7, hs8, hs9, hs10, -, hs12, hs13, hs14, -, -, -⟩ :=
      renderTemplate_some_fields sim _ sop (now + 180) e2 false false none r2 hr2
    have htn : top.name = "TokenIssued" := by
      have hb := List.find?_some ht
      exact eq_of_beq hb
    have hsn : sop.name = "InteractiveUserSignIn" := by
      have hb := List.find?_some hs
      exact eq_of_beq hb
    simp only [Bool.false_eq_true, if_false] at ht5 ht7 ht8 ht9 ht10 hs5 hs7 hs8 hs9 hs10
    exact ⟨ht5.trans huid, hs5.trans huid, ht1, hs1, ht2.trans htn, hs2.trans hsn,
      ht12, ht8, ht9, ht10, ht7, ht13, ht14,
      hs12, hs9, hs10, hs8, hs7, hs13, hs14⟩

/-- Witness for C4 on the concrete configuration. -/
theorem c4_witness :
    ∃ r1 r2 u,
      generate_token_theft_logs cSim "alice@contoso.com" 1000 "evt-a" "evt-b" = .ok (r1, r2)
      ∧ cSim.users.find? (fun x => x.user_id == "alice@contoso.com") = some u
      ∧ r1.user_id = "alice@contoso.com" ∧ r2.user_id = "alice@contoso.com"
      ∧ r1.timestamp = 1000 ∧ r2.timestamp = 1000 + 180
      ∧ r1.operation = "TokenIssued" ∧ r2.operation = "InteractiveUserSignIn"
      ∧ r1.client_ip = u.ip ∧ r1.device_id = u.device_id ∧ r1.os = u.os
      ∧ r1.browser = u.browser ∧ r1.user_agent = u.user_agent
      ∧ r1.city = u.city ∧ r1.country = u.country
      ∧ r2.client_ip = "203.0.113.99" ∧ r2.os = "Kali Linux"
      ∧ r2.browser = "Unknown" ∧ r2.device_id = "device-attacker"
      ∧ r2.user_agent = "curl/8.1.0" ∧ r2.city = "Moscow" ∧ r2.country = "RU" :=
  c4_token_theft_two_records cSim "alice@contoso.com" 1000 "evt-a" "evt-b"
    (by decide) (by decide) (by decide) (by decide)

/-- C5 counterexample: with batch size 0 and a forced user name absent from the
configuration, generate_logs returns an empty batch normally instead of
raising (the while-loop body, which performs the lookup, never runs). -/
theorem c5_counterexample :
    generate_logs cSim 0 0 false (some "ghost@contoso.com") none none false [] = .ok [] := by
  rfl

/-- C5 (amended): for every batch of size at least one, forcing a nonempty
user name or operation name absent from the configuration makes generate_logs
raise a named-lookup error carrying the offending name in its message, with no
records emitted before the error; a size-0 batch returns empty without
raising. -/
theorem c5_named_lookup_error (sim : Simulator) (N start : Nat) (inf : Bool)
    (fa : Option String) (ia : Bool) (d : Draw) (rest : List Draw)
    (hN : 0 < N) :
    (∀ u fo, u ≠ "" → sim.users.find? (fun x => x.user_id == u) = none →
      generate_logs sim N start inf (some u) fa fo ia (d :: rest)
        = .err ("User " ++ u ++ " not found.") [])
    ∧ (∀ o, o ≠ "" → sim.operations.find? (fun x => x.name == o) = none →
        sim.users ≠ [] → sim.service_principals ≠ [] →
        generate_logs sim N start inf none fa (some o) ia (d :: rest)
          = .err ("Operation " ++ o ++ " not found.") []) := by
  constructor
  · intro u fo hne hfind
    have htr : truthy (some u) = some u := by simp [truthy, hne]
    have hstep : genStep sim inf (some u) fa fo d start
        = .fail ("User " ++ u ++ " not found.") := by
      simp [genStep, selectEntity, htr, hfind]
    have hlt : ([] : List LogRecord).length < N := by simpa using hN
    unfold generate_logs
    simp [genLoop, hlt, hstep]
    omega
  · intro o hne hfind hu hs
    have htr : truthy (some o) = some o := by simp [truthy, hne]
    obtain ⟨e, hsel, -⟩ := selectEntity_unforced sim none d rfl hu hs
    have hstep : genStep sim inf none fa (some o) d start
        = .fail ("Operation " ++ o ++ " not found.") := by
      simp [genStep, hsel, selectOperation, htr, hfind]
    have hlt : ([] : List LogRecord).length < N := by simpa using hN
    unfold generate_logs
    simp [genLoop, hlt, hstep]
    omega

/-- Witness for C5 on the concrete configuration. -/
theorem c5_witness :
    generate_logs cSim 1 0 false (some "ghost@contoso.com") none none false [cDrawU]
      = .err ("User " ++ "ghost@contoso.com" ++ " not found.") [] :=
  (c5_named_lookup_error cSim 1 0 false none false cDrawU [] (by decide)).1
    "ghost@contoso.com" none (by decide) (by decide)

/-- The record list inside a generation result. -/
def okLogs : GenResult → List LogRecord
  | .ok logs => logs
  | .err _ emitted => emitted
  | .outOfDraws emitted => emitted

/-- C3: a record of a generation run carries result_status "Failure" only when
failure injection is enabled, its operation is the interactive sign-in and its
actor is not a service principal (the failure coin having fired); any record
outside those conditions carries the organization's configured default
status. -/
theorem c3_failure_only_interactive_signin (sim : Simulator) (N start : Nat)
    (inf : Bool) (fu fa fo : Option String) (ia : Bool) (draws : List Draw)
    (logs : List LogRecord)
    (hdef : sim.org_config.result_status ≠ "Failure")
    (h : generate_logs sim N start inf fu fa fo ia draws = .ok logs) :
    ∀ r ∈ logs,
      (r.result_status = "Failure" →
        inf = true ∧ r.operation = "InteractiveUserSignIn" ∧ r.user_type ≠ "2")
      ∧ ((r.operation ≠ "InteractiveUserSignIn" ∨ r.user_type = "2" ∨ inf = false) →
          r.result_status = sim.org_config.result_status) := by
  refine genLoop_ok_forall sim N inf fu fa fo _ ?_ draws start [] (by simp) logs h
  intro d t log t2 hstep
  obtain ⟨-, entity, is_spn, operation, hsel, hop, hrd⟩ :=
    genStep_emit_inv sim inf fu fa fo d t log t2 hstep
  obtain ⟨-, h2, h3, h4, -⟩ :=
    renderTemplate_some_fields sim entity operation t d.eventId _ is_spn (truthy fa) log hrd
  constructor
  · intro hF
    by_cases hc : (inf && (operation.name == "InteractiveUserSignIn")
        && (!is_spn) && d.failCoin) = true
    · simp only [Bool.and_eq_true, Bool.not_eq_true'] at hc
      obtain ⟨⟨⟨hinf, hname⟩, hspn⟩, -⟩ := hc
      have hnm : operation.name = "InteractiveUserSignIn" := eq_of_beq hname
      refine ⟨hinf, by rw [h2, hnm], ?_⟩
      rw [h4, hspn]
      simp only [Bool.false_eq_true, if_false]
      split
      · decide
      · decide
    · rw [h3, if_neg (by simpa using hc)] at hF
      exact absurd hF hdef
  · intro hant
    have hcfalse : (inf && (operation.name == "InteractiveUserSignIn")
        && (!is_spn) && d.failCoin) = false := by
      rcases hant with h5 | h5 | h5
      · have hne : operation.name ≠ "InteractiveUserSignIn" := fun he => h5 (h2.trans he)
        have hb : (operation.name == "InteractiveUserSignIn") = false :=
          beq_eq_false_iff_ne.mpr hne
        simp [hb]
      · have hspn : is_spn = true := by
          by_contra hn
          have hf : is_spn = false := by simpa using hn
          rw [h4, hf] at h5
          simp only [Bool.false_eq_true, if_false] at h5
          revert h5
          split
          · decide
          · decide
        simp [hspn]
      · simp [h5]
    rw [h3, if_neg (by simp [hcfalse])]

/-- Witness for C3: a concrete run with the failure coin up, on which the
failure-marked record is characterized by the theorem. -/
theorem c3_witness :
    ∃ r, r ∈ okLogs (generate_logs cSim 1 0 true none none none false [cDrawF])
      ∧ r.result_status = "Failure"
      ∧ true = true ∧ r.operation = "InteractiveUserSignIn" ∧ r.user_type ≠ "2" := by
  have h := c3_failure_only_interactive_signin cSim 1 0 true none none none false [cDrawF]
    (okLogs (generate_logs cSim 1 0 true none none none false [cDrawF])) (by decide) rfl
  have hall : ∀ x ∈ okLogs (generate_logs cSim 1 0 true none none none false [cDrawF]),
      x.result_status = "Failure" := by decide
  obtain ⟨r, hr⟩ : ∃ r, okLogs (generate_logs cSim 1 0 true none none none false [cDrawF])
      = [r] := ⟨_, rfl⟩
  have hm : r ∈ okLogs (generate_logs cSim 1 0 true none none none false [cDrawF]) := by
    rw [hr]
    exact List.mem_singleton_self r
  have hF := hall r hm
  exact ⟨r, hm, hF, (h r hm).1 hF⟩

/-- C8: when a configured user, operation and application are all forced,
the run succeeds with every record carrying exactly that user id, operation
name and application display name, and the actor is never a service
principal. -/
theorem c8_forced_fields (sim : Simulator) (N start : Nat) (inf : Bool) (ia : Bool)
    (draws : List Draw) (u o a : String)
    (hu : u ≠ "") (ho : o ≠ "") (ha : a ≠ "")
    (hfu : (sim.users.find? (fun x => x.user_id == u)).isSome)
    (hfo : (sim.operations.find? (fun x => x.name == o)).isSome)
    (hfa : (lookupStr sim.app_id_map a).isSome)
    (hN : N ≤ draws.length) :
    ∃ logs, generate_logs sim N start inf (some u) (some a) (some o) ia draws = .ok logs
      ∧ logs.length = N
      ∧ ∀ r ∈ logs,
          r.user_id = u ∧ r.operation = o ∧ r.app_display_name = a ∧ r.user_type ≠ "2" := by
  have htru : truthy (some u) = some u := by simp [truthy, hu]
  have htro : truthy (some o) = some o := by simp [truthy, ho]
  have htra : truthy (some a) = some a := by simp [truthy, ha]
  rcases Option.isSome_iff_exists.mp hfu with ⟨eu, heu⟩
  rcases Option.isSome_iff_exists.mp hfo with ⟨opo, hopo⟩
  have hemit : ∀ (d : Draw) (t : Nat), ∃ log,
      genStep sim inf (some u) (some a) (some o) d t = .emit log (t + (15 + d.jitter % 31))
      ∧ log.timestamp = t := by
    intro d t
    have hsel := selectEntity_forced sim (some u) d u eu htru heu
    have hop := selectOperation_forced sim (some o) false d o opo htro hopo
    have happ2 : (lookupStr sim.app_id_map
        ((truthy (some a)).getD opo.app_display_name)).isSome := by
      rw [htra]
      simpa using hfa
    rcases renderTemplate_isSome sim eu opo t d.eventId
        (inf && (opo.name == "InteractiveUserSignIn") && (!false) && d.failCoin)
        false (truthy (some a)) happ2 with ⟨log, hlog⟩
    exact ⟨log,
      genStep_emits sim inf (some u) (some a) (some o) d t eu false opo log hsel hop hlog,
      (renderTemplate_some_fields sim eu opo t d.eventId _ false (truthy (some a)) log hlog).1⟩
  rcases genLoop_emitAll sim N inf (some u) (some a) (some o) hemit draws start []
      (by simp) (by simpa using hN) with ⟨tail, heq, hlen, -, -⟩
  refine ⟨tail, by simpa using heq, by simpa using hlen, ?_⟩
  refine genLoop_ok_forall sim N inf (some u) (some a) (some o) _ ?_ draws start []
    (by simp) tail (by simpa using heq)
  intro d t log t2 hstep
  obtain ⟨-, entity, is_spn, operation, hsel, hop, hrd⟩ :=
    genStep_emit_inv sim inf (some u) (some a) (some o) d t log t2 hstep
  have he1 := (selectEntity_forced sim (some u) d u eu htru heu).symm.trans hsel
  obtain ⟨heq1, heq2⟩ : eu = entity ∧ false = is_spn := by simpa using he1
  have ho1 := (selectOperation_forced sim (some o) is_spn d o opo htro hopo).symm.trans hop
  have heq3 : opo = operation := by simpa using ho1
  obtain ⟨-, h2, -, h4, h5, -, -, -, -, -, h11, -, -, -, -, -, -⟩ :=
    renderTemplate_some_fields sim entity operation t d.eventId _ is_spn
      (truthy (some a)) log hrd
  have huid : eu.user_id = u := by
    have hb := List.find?_some heu
    exact eq_of_beq hb
  have honm : opo.name = o := by
    have hb := List.find?_some hopo
    exact eq_of_beq hb
  refine ⟨?_, ?_, ?_, ?_⟩
  · rw [h5, ← heq2, ← heq1]
    simpa using huid
  · rw [h2, ← heq3, honm]
  · rw [h11, htra]
    rfl
  · rw [h4, ← heq2]
    simp only [Bool.false_eq_true, if_false]
    split
    · decide
    · decide

/-- Witness for C8 on the concrete configuration. -/
theorem c8_witness :
    ∃ logs, generate_logs cSim 2 0 true (some "alice@contoso.com")
        (some "Contoso Phish Portal") (some "InteractiveUserSignIn") true [cDrawU, cDrawS]
        = .ok logs
      ∧ logs.length = 2
      ∧ ∀ r ∈ logs,
          r.user_id = "alice@contoso.com" ∧ r.operation = "InteractiveUserSignIn"
          ∧ r.app_display_name = "Contoso Phish Portal" ∧ r.user_type ≠ "2" :=
  c8_forced_fields cSim 2 0 true true [cDrawU, cDrawS]
    "alice@contoso.com" "InteractiveUserSignIn" "Contoso Phish Portal"
    (by decide) (by decide) (by decide) (by decide) (by decide) (by decide) (by decide)

/-- C6 counterexample: with the is-attack marker set and identical forced
user/operation/application inputs, two runs whose draws differ only in the
failure coin produce different records (failure injection being enabled), so
the marker does not suppress the stochastic draws. -/
theorem c6_counterexample :
    generate_logs cSim 1 0 true (some "alice@contoso.com") (some "Office 365")
        (some "InteractiveUserSignIn") true [cDrawU]
    ≠ generate_logs cSim 1 0 true (some "alice@contoso.com") (some "Office 365")
        (some "InteractiveUserSignIn") true [cDrawF] := by
  decide

/-- C6 (amended): generate_logs ignores its is-attack parameter; stochastic
behavior is suppressed by the forcing parameters and the failure toggle
instead: with forced nonempty user, operation and application names and
failure injection disabled, two runs whose draw streams agree outside the
actor-kind and failure coins produce identical results, for any is-attack
values. -/
theorem c6_forced_runs_coin_independent (sim : Simulator) (N start : Nat)
    (u o a : String) (ia1 ia2 : Bool) (draws1 draws2 : List Draw)
    (hu : u ≠ "") (ho : o ≠ "") (ha : a ≠ "")
    (hshape : draws1.map (fun d => (d.entityIdx, d.opIdx, d.jitter, d.eventId))
      = draws2.map (fun d => (d.entityIdx, d.opIdx, d.jitter, d.eventId))) :
    generate_logs sim N start false (some u) (some a) (some o) ia1 draws1
    = generate_logs sim N start false (some u) (some a) (some o) ia2 draws2 := by
  have htru : truthy (some u) = some u := by simp [truthy, hu]
  have htro : truthy (some o) = some o := by simp [truthy, ho]
  have hstepg : ∀ (d1 d2 : Draw),
      (d1.entityIdx, d1.opIdx, d1.jitter, d1.eventId)
        = (d2.entityIdx, d2.opIdx, d2.jitter, d2.eventId) →
      ∀ t, genStep sim false (some u) (some a) (some o) d1 t
        = genStep sim false (some u) (some a) (some o) d2 t := by
    intro d1 d2 hd t
    obtain ⟨-, -, h3, h4⟩ : d1.entityIdx = d2.entityIdx ∧ d1.opIdx = d2.opIdx
        ∧ d1.jitter = d2.jitter ∧ d1.eventId = d2.eventId := by
      simpa using hd
    simp only [genStep, selectEntity, selectOperation, htru, htro,
      Bool.false_and, h3, h4]
  have hloop : ∀ (dl1 dl2 : List Draw),
      dl1.map (fun d => (d.entityIdx, d.opIdx, d.jitter, d.eventId))
        = dl2.map (fun d => (d.entityIdx, d.opIdx, d.jitter, d.eventId)) →
      ∀ t acc,
      genLoop sim N false (some u) (some a) (some o) dl1 t acc
      = genLoop sim N false (some u) (some a) (some o) dl2 t acc := by
    intro dl1
    induction dl1 with
    | nil =>
        intro dl2 hm t acc
        cases dl2 with
        | nil => rfl
        | cons d2 r2 => simp at hm
    | cons d1 r1 ih =>
        intro dl2 hm t acc
        cases dl2 with
        | nil => simp at hm
        | cons d2 r2 =>
            simp only [List.map_cons, List.cons.injEq] at hm
            obtain ⟨hd, hr⟩ := hm
            by_cases hlt : acc.length < N
            · simp only [genLoop, if_pos hlt, hstepg d1 d2 hd t]
              cases hX : genStep sim false (some u) (some a) (some o) d2 t with
              | fail m => rfl
              | skip => exact ih r2 hr t acc
              | emit log t2 => exact ih r2 hr t2 (acc ++ [log])
            · simp [genLoop, hlt]
  unfold generate_logs
  exact hloop draws1 draws2 hshape start []

/-- Witness for C6 on the concrete configuration: with failure injection off,
flipping both coins and the is-attack flag leaves the output unchanged. -/
theorem c6_witness :
    generate_logs cSim 1 0 false (some "alice@contoso.com") (some "Office 365")
        (some "InteractiveUserSignIn") true [cDrawU]
    = generate_logs cSim 1 0 false (some "alice@contoso.com") (some "Office 365")
        (some "InteractiveUserSignIn") false [cDrawF] :=
  c6_forced_runs_coin_independent cSim 1 0 "alice@contoso.com"
    "InteractiveUserSignIn" "Office 365" true false [cDrawU] [cDrawF]
    (by decide) (by decide) (by decide) (by decide)

/-- C2 counterexample: a configuration with non-empty user and
service-principal pools and one operation of each class, but whose operation
application name is absent from the ApplicationMap, makes the batch raise a
KeyError instead of returning the requested record: the claim's stated
hypotheses do not suffice. -/
theorem c2_counterexample :
    generate_logs cSimGhost 1 0 false none none none false [cDrawU]
      = .err "KeyError: Ghost App" [] := by
  rfl

/-- C2 (amended): with non-empty pools, an operation of each class, and
additionally every operation's application display name present in the
ApplicationMap, a benign batch of size N returns exactly N records whose
timestamps are non-decreasing, consecutive records separated by one jitter
advance of 15 to 45 seconds; moreover any iteration the selector aborts on an
empty operation pool consumes no record slot and leaves the clock unchanged. -/
theorem c2_batch_count_and_jitter (sim : Simulator) (N start : Nat)
    (inf ia : Bool) (draws : List Draw)
    (hu : sim.users ≠ []) (hs : sim.service_principals ≠ [])
    (hio : ∃ op ∈ sim.operations, strContains op.name "ServicePrincipal" = false)
    (hso : ∃ op ∈ sim.operations, strContains op.name "ServicePrincipal" = true)
    (happ : ∀ op ∈ sim.operations, (lookupStr sim.app_id_map op.app_display_name).isSome)
    (hN : N ≤ draws.length) :
    (∃ logs, generate_logs sim N start inf none none none ia draws = .ok logs
      ∧ logs.length = N
      ∧ List.Chain' (fun a b => a.timestamp ≤ b.timestamp) logs
      ∧ List.Chain' jitterRel logs)
    ∧ (∀ (sim2 : Simulator) (tl2 : Nat) (inf2 : Bool) (fu2 fa2 fo2 : Option String)
        (d : Draw) (rest : List Draw) (t : Nat) (acc : List LogRecord),
        acc.length < tl2 →
        genStep sim2 inf2 fu2 fa2 fo2 d t = .skip →
        genLoop sim2 tl2 inf2 fu2 fa2 fo2 (d :: rest) t acc
          = genLoop sim2 tl2 inf2 fu2 fa2 fo2 rest t acc) := by
  constructor
  · have hemit : ∀ (d : Draw) (t : Nat), ∃ log,
        genStep sim inf none none none d t = .emit log (t + (15 + d.jitter % 31))
        ∧ log.timestamp = t := by
      intro d t
      obtain ⟨e, hsel, -⟩ := selectEntity_unforced sim none d rfl hu hs
      have hpool : ∃ op ∈ sim.operations,
          strContains op.name "ServicePrincipal" = d.spnCoin := by
        cases hc : d.spnCoin
        · exact hio
        · exact hso
      obtain ⟨op, hop, hopm⟩ := selectOperation_unforced sim none d.spnCoin d rfl hpool
      have happ2 : (lookupStr sim.app_id_map
          ((truthy none).getD op.app_display_name)).isSome := by
        simpa [truthy] using happ op hopm
      rcases renderTemplate_isSome sim e op t d.eventId
          (inf && (op.name == "InteractiveUserSignIn") && (!d.spnCoin) && d.failCoin)
          d.spnCoin (truthy none) happ2 with ⟨log, hlog⟩
      exact ⟨log,
        genStep_emits sim inf none none none d t e d.spnCoin op log hsel hop hlog,
        (renderTemplate_some_fields sim e op t d.eventId _ d.spnCoin
          (truthy none) log hlog).1⟩
    rcases genLoop_emitAll sim N inf none none none hemit draws start []
        (by simp) (by simpa using hN) with ⟨tail, heq, hlen, -, hchain⟩
    refine ⟨tail, by simpa using heq, by simpa using hlen, ?_, hchain⟩
    refine List.Chain'.imp ?_ hchain
    intro a b hab
    obtain ⟨h1, -⟩ := hab
    omega
  · intro sim2 tl2 inf2 fu2 fa2 fo2 d rest t acc hlt hskip
    exact genLoop_skip_step sim2 tl2 inf2 fu2 fa2 fo2 d rest t acc hlt hskip

/-- Witness for C2 on the concrete configuration. -/
theorem c2_witness :
    (∃ logs, generate_logs cSim 2 100 false none none none false [cDrawU, cDrawS]
        = .ok logs
      ∧ logs.length = 2
      ∧ List.Chain' (fun a b => a.timestamp ≤ b.timestamp) logs
      ∧ List.Chain' jitterRel logs)
    ∧ (∀ (sim2 : Simulator) (tl2 : Nat) (inf2 : Bool) (fu2 fa2 fo2 : Option String)
        (d : Draw) (rest : List Draw) (t : Nat) (acc : List LogRecord),
        acc.length < tl2 →
        genStep sim2 inf2 fu2 fa2 fo2 d t = .skip →
        genLoop sim2 tl2 inf2 fu2 fa2 fo2 (d :: rest) t acc
          = genLoop sim2 tl2 inf2 fu2 fa2 fo2 rest t acc) :=
  c2_batch_count_and_jitter cSim 2 100 false false [cDrawU, cDrawS]
    (by decide) (by decide) (by decide) (by decide) (by decide) (by decide)
